import Mathlib

/-!
Shallow embedding of the persistence layer of an agentic customer-support
system: a relational (SQLite) order store and conversation store, a
wide-column (DynamoDB) order store, and an object-store (S3) conversation
store.  Each Lean function embeds one Python method; timestamps are modelled
by a per-store logical clock that advances on every `datetime.now()` call, so
successive timestamps are strictly increasing and the ISO-string ordering of
the source is mirrored by `Nat` ordering.  Monetary values are exact
rationals (`Price`); `round2` models rounding to two decimals.
-/

/-- Monetary values, modelled as exact rationals. -/
abbrev Price := ℚ

/-- Round to two decimal places, modelling Python's `round(x, 2)` and the
SQL `round(x, 2)` (the tie-breaking modes differ only at exact half-cents,
which no statement here touches). -/
def round2 (q : Price) : Price := (round (q * 100) : ℤ) / 100

/-- A line item as supplied by callers of `create_order`:
`{"item_name": str, "quantity": int, "unit_price": float}`. -/
structure SrcItem where
  item_name : String
  quantity : Int
  unit_price : Price
deriving DecidableEq

/-- The `OrderStatus` enumeration shared by both order managers. -/
inductive OrderStatus
  | PENDING
  | CONFIRMED
  | PREPARING
  | READY
  | COMPLETED
  | CANCELLED
deriving DecidableEq

/-- `OrderStatus.<member>.value`, the string stored in the backends. -/
def OrderStatus.value : OrderStatus → String
  | .PENDING => "Pending"
  | .CONFIRMED => "Confirmed"
  | .PREPARING => "Being prepared"
  | .READY => "Ready for pickup"
  | .COMPLETED => "Completed"
  | .CANCELLED => "Cancelled"

/-- Python truthiness on an optional string: `None` and `""` are falsy.
Used for `if estimated_ready_time:`-style guards in the sources. -/
def pyTruthy : Option String → Option String
  | some s => if s = "" then none else some s
  | none => none

/-- Python's `str.upper()`, written as a structural map over the character
list (equivalent to `String.toUpper`, whose `mapAux` recursion does not
reduce definitionally). -/
def pyUpper (s : String) : String := String.mk (s.data.map Char.toUpper)

/-- `sender_name or sender_type.upper()`: the left operand wins when truthy
(non-`None`, non-empty), otherwise the upper-cased sender type is used. -/
def senderLabel (sender_name : Option String) (sender_type : String) : String :=
  match sender_name with
  | some s => if s = "" then pyUpper sender_type else s
  | none => pyUpper sender_type

/-- One rendered history line: `f"{sender}: {msg['content']}\n"`. -/
def lineOf (sender_name : Option String) (sender_type content : String) : String :=
  senderLabel sender_name sender_type ++ ": " ++ content ++ "\n"

/-- Lookup in an association list keyed by strings (first match wins). -/
def lookupA {α : Type} (l : List (String × α)) (k : String) : Option α :=
  (l.find? (fun p => p.1 = k)).map (fun p => p.2)

/-- Insert-or-replace in an association list keyed by strings. -/
def putA {α : Type} (l : List (String × α)) (k : String) (v : α) : List (String × α) :=
  if l.any (fun p => p.1 = k) then l.map (fun p => if p.1 = k then (k, v) else p)
  else l ++ [(k, v)]

namespace OrderManager

/-- One row of the SQLite `orders` table. -/
structure OrderRow where
  order_id : String
  customer_id : Option String
  customer_name : Option String
  total_price : Price
  status : String
  created_at : Nat
  updated_at : Nat
  estimated_ready_time : Option String
  conversation_id : Option String
  metadata : Option String
deriving DecidableEq

/-- One row of the SQLite `order_items` table (`id` is the AUTOINCREMENT
primary key, assigned 1, 2, 3, … in insertion order). -/
structure ItemRow where
  id : Nat
  order_id : String
  item_name : String
  quantity : Int
  unit_price : Price
  subtotal : Price
deriving DecidableEq

/-- The SQLite database state used by `OrderManager`.  `clock` is the logical
time source: each `datetime.now()` call reads it and advances it. -/
structure DB where
  orders : List OrderRow
  order_items : List ItemRow
  next_item_id : Nat
  clock : Nat
deriving DecidableEq

/-- A freshly initialized database (`_initialize_database` creates empty
tables; SQLite AUTOINCREMENT starts at rowid 1). -/
def emptyDB : DB := { orders := [], order_items := [], next_item_id := 1, clock := 0 }

/-- The item-insertion loop of `create_order`: for each input item, in
order, one `order_items` row is inserted with `subtotal =
item["unit_price"] * item["quantity"]`, ids assigned by AUTOINCREMENT. -/
def insertItems (order_id : String) : List SrcItem → Nat → List ItemRow × Nat
  | [], next_id => ([], next_id)
  | it :: items, next_id =>
      let rest := insertItems order_id items (next_id + 1)
      ({ id := next_id, order_id := order_id, item_name := it.item_name,
         quantity := it.quantity, unit_price := it.unit_price,
         subtotal := it.unit_price * it.quantity } :: rest.1,
       rest.2)

/-- `OrderManager.create_order` (order_manager.py lines 93-142).  The order
row is inserted with `status = OrderStatus.PENDING.value` and
`created_at = updated_at = now`; a duplicate `order_id` violates the primary
key, raising `sqlite3.IntegrityError`, which is caught and turned into
`False` with the transaction rolled back (`now` was already read once). -/
def create_order (db : DB) (order_id : String) (customer_id customer_name : Option String)
    (items : List SrcItem) (total_price : Price)
    (conversation_id estimated_ready_time metadata : Option String) : Bool × DB :=
  if db.orders.any (fun r => r.order_id = order_id) then
    (false, { db with clock := db.clock + 1 })
  else
    let now := db.clock
    let row : OrderRow :=
      { order_id := order_id, customer_id := customer_id, customer_name := customer_name,
        total_price := total_price, status := OrderStatus.PENDING.value,
        created_at := now, updated_at := now,
        estimated_ready_time := estimated_ready_time,
        conversation_id := conversation_id, metadata := metadata }
    let inserted := insertItems order_id items db.next_item_id
    (true, { orders := db.orders ++ [row], order_items := db.order_items ++ inserted.1,
             next_item_id := inserted.2, clock := db.clock + 1 })

/-- The item dict produced by `get_order` for each `order_items` row. -/
structure ItemView where
  item_name : String
  quantity : Int
  unit_price : Price
  subtotal : Price
deriving DecidableEq

/-- The dict returned by `get_order`. -/
structure OrderView where
  order_id : String
  customer_id : Option String
  customer_name : Option String
  total_price : Price
  status : String
  created_at : Nat
  updated_at : Nat
  estimated_ready_time : Option String
  conversation_id : Option String
  metadata : Option String
  items : List ItemView
deriving DecidableEq

/-- Projection of an `order_items` row into the returned item dict. -/
def itemToView (i : ItemRow) : ItemView :=
  { item_name := i.item_name, quantity := i.quantity,
    unit_price := i.unit_price, subtotal := i.subtotal }

/-- Assembly of the order dict from the order row and its item rows. -/
def rowToView (r : OrderRow) (items : List ItemView) : OrderView :=
  { order_id := r.order_id, customer_id := r.customer_id,
    customer_name := r.customer_name, total_price := r.total_price,
    status := r.status, created_at := r.created_at, updated_at := r.updated_at,
    estimated_ready_time := r.estimated_ready_time,
    conversation_id := r.conversation_id, metadata := r.metadata, items := items }

/-- `OrderManager.get_order` (lines 144-201).  Item rows are stored in
AUTOINCREMENT id order, so the list filter realizes `ORDER BY id ASC`. -/
def get_order (db : DB) (order_id : String) : Option OrderView :=
  match db.orders.find? (fun r => r.order_id = order_id) with
  | none => none
  | some r =>
      some (rowToView r
        ((db.order_items.filter (fun i => i.order_id = order_id)).map itemToView))

/-- `OrderManager.update_order_status` (lines 275-297): one `UPDATE` of
`status` and `updated_at` on the matching row; returns `rowcount > 0`. -/
def update_order_status (db : DB) (order_id : String) (status : OrderStatus) : Bool × DB :=
  let now := db.clock
  (db.orders.any (fun r => r.order_id = order_id),
   { db with
     orders := db.orders.map (fun r =>
       if r.order_id = order_id then { r with status := status.value, updated_at := now }
       else r),
     clock := db.clock + 1 })

/-- The statistics dict returned by both order managers.  `status_breakdown`
is an association list keyed by status string (a Python dict). -/
structure OrderStats where
  total_orders : Nat
  total_revenue : Price
  status_breakdown : List (String × Nat)
  unique_customers : Nat
deriving DecidableEq

/-- `OrderManager.get_order_statistics` (lines 367-401): `COUNT(*)`,
`round(SUM(total_price), 2)` (the empty `SUM` is NULL, read as 0.0),
`GROUP BY status` counts, and `COUNT(DISTINCT customer_id)` over non-NULL
customer ids. -/
def get_order_statistics (db : DB) : OrderStats :=
  { total_orders := db.orders.length
    total_revenue := round2 ((db.orders.map (fun r => r.total_price)).sum)
    status_breakdown :=
      ((db.orders.map (fun r => r.status)).dedup).map
        (fun s => (s, (db.orders.filter (fun r => r.status = s)).length))
    unique_customers := ((db.orders.filterMap (fun r => r.customer_id)).dedup).length }

/-- `OrderManager.delete_order` (lines 403-420): `DELETE` the item rows,
then `DELETE` the order row; the returned boolean is `cursor.rowcount > 0`
of the *last* statement, i.e. whether an order row was deleted. -/
def delete_order (db : DB) (order_id : String) : Bool × DB :=
  ((db.orders.filter (fun r => r.order_id = order_id)).length > 0,
   { db with
     orders := db.orders.filter (fun r => ¬ r.order_id = order_id),
     order_items := db.order_items.filter (fun i => ¬ i.order_id = order_id) })

end OrderManager

namespace OrderManagerDynamoDB

/-- One DynamoDB item of the `orders` table.  Attributes other than the
`order_id` key are optional: `put_item` stores exactly the attributes built
by `create_order`, while `update_item` on an absent key creates an item
holding only the key and the SET-expression attributes. -/
structure DynRecord where
  order_id : String
  customer_id : Option String
  customer_name : Option String
  total_price : Option Price
  status : Option String
  created_at : Option Nat
  updated_at : Option Nat
  items : Option (List SrcItem)
  estimated_ready_time : Option String
  conversation_id : Option String
  metadata : Option String
deriving DecidableEq

/-- The DynamoDB table state: items keyed by `order_id` (unique) plus the
logical clock for `datetime.now()`. -/
structure Table where
  rows : List DynRecord
  clock : Nat
deriving DecidableEq

/-- An empty table. -/
def emptyTable : Table := { rows := [], clock := 0 }

/-- DynamoDB `put_item`: unconditional insert-or-replace of the whole item
at its key. -/
def putItem (rows : List DynRecord) (rec : DynRecord) : List DynRecord :=
  if rows.any (fun r => r.order_id = rec.order_id) then
    rows.map (fun r => if r.order_id = rec.order_id then rec else r)
  else rows ++ [rec]

/-- `OrderManagerDynamoDB.create_order` (order_manager_dynamodb.py lines
64-112).  The item is built with `status = Pending`,
`created_at = updated_at = now` and the caller's `items` list stored
verbatim (no per-item subtotal is computed); `estimated_ready_time`,
`metadata` and `conversation_id` are attached only when truthy; then
`put_item` writes it — overwriting any existing item with the same
`order_id` — and the function returns `True`. -/
def create_order (tbl : Table) (order_id : String) (customer_id customer_name : String)
    (items : List SrcItem) (total_price : Price)
    (conversation_id estimated_ready_time metadata : Option String) : Bool × Table :=
  let now := tbl.clock
  let rec0 : DynRecord :=
    { order_id := order_id, customer_id := some customer_id,
      customer_name := some customer_name, total_price := some total_price,
      status := some OrderStatus.PENDING.value,
      created_at := some now, updated_at := some now, items := some items,
      estimated_ready_time := pyTruthy estimated_ready_time,
      conversation_id := pyTruthy conversation_id,
      metadata := pyTruthy metadata }
  (true, { rows := putItem tbl.rows rec0, clock := tbl.clock + 1 })

/-- `OrderManagerDynamoDB.get_order` (lines 114-135).  `up` is the transport
state: when the backend is unreachable the boto3 call raises, the blanket
`except Exception` prints the error and returns `None` — the same value as
a missing key. -/
def get_order (up : Bool) (tbl : Table) (order_id : String) : Option DynRecord :=
  if up then tbl.rows.find? (fun r => r.order_id = order_id)
  else none

/-- A record holding only the key and the attributes of the
`update_order_status` SET expression, as DynamoDB creates on upsert. -/
def upsertRecord (order_id : String) (status : String) (now : Nat) : DynRecord :=
  { order_id := order_id, customer_id := none, customer_name := none,
    total_price := none, status := some status, created_at := none,
    updated_at := some now, items := none, estimated_ready_time := none,
    conversation_id := none, metadata := none }

/-- `OrderManagerDynamoDB.update_order_status` (lines 204-232).
`update_item` with `SET #status = :status, updated_at = :updated_at` is an
upsert: an existing item has just those two attributes replaced, an absent
key gets a fresh item holding only the key, status and `updated_at`.  The
function returns `True` either way. -/
def update_order_status (tbl : Table) (order_id : String) (status : OrderStatus) :
    Bool × Table :=
  let now := tbl.clock
  let rows :=
    if tbl.rows.any (fun r => r.order_id = order_id) then
      tbl.rows.map (fun r =>
        if r.order_id = order_id then { r with status := some status.value, updated_at := some now }
        else r)
    else tbl.rows ++ [upsertRecord order_id status.value now]
  (true, { rows := rows, clock := tbl.clock + 1 })

/-- `status_counts[s] = status_counts.get(s, 0) + 1` on a dict modelled as
an association list. -/
def bumpCount (m : List (String × Nat)) (k : String) : List (String × Nat) :=
  if m.any (fun p => p.1 = k) then m.map (fun p => if p.1 = k then (p.1, p.2 + 1) else p)
  else m ++ [(k, 1)]

/-- `unique_customers.add(cid)` guarded by `if item.get('customer_id'):`
(truthiness: absent and empty string are skipped); the set is modelled as a
duplicate-free list in insertion order. -/
def addCustomer (s : List String) (customer_id : Option String) : List String :=
  match pyTruthy customer_id with
  | none => s
  | some c => if s.any (fun x => x = c) then s else s ++ [c]

/-- The per-item body shared by both scan loops of `get_order_statistics`:
accumulates revenue (`item.get('total_price', 0.0)`), the status breakdown
(`item.get('status', 'Unknown')`) and the customer set. -/
def statStep (acc : Price × List (String × Nat) × List String) (r : DynRecord) :
    Price × List (String × Nat) × List String :=
  (acc.1 + (r.total_price.getD 0),
   bumpCount acc.2.1 (r.status.getD "Unknown"),
   addCustomer acc.2.2 r.customer_id)

/-- `OrderManagerDynamoDB.get_order_statistics` (lines 294-350), with the
scan's pagination made explicit: `pages` is the sequence of `Items` lists
the backend returns (the first from the initial `scan`, the rest from the
`LastEvaluatedKey` continuation loop).  `total_orders` is set to
`len(items)` of the first page only; the continuation loop accumulates
revenue, status counts and customers but never adds to `total_orders`. -/
def get_order_statistics (pages : List (List DynRecord)) : OrderManager.OrderStats :=
  match pages with
  | [] =>
      { total_orders := 0, total_revenue := round2 0,
        status_breakdown := [], unique_customers := 0 }
  | first :: rest =>
      let a1 := first.foldl statStep (0, [], [])
      let a2 := rest.foldl (fun acc page => page.foldl statStep acc) a1
      { total_orders := first.length
        total_revenue := round2 a2.1
        status_breakdown := a2.2.1
        unique_customers := a2.2.2.length }

/-- A pagination of a table: the scanned pages concatenate to the table's
items in order. -/
def Paginates (pages : List (List DynRecord)) (tbl : Table) : Prop :=
  pages.flatten = tbl.rows

/-- `OrderManagerDynamoDB.delete_order` (lines 352-368): `delete_item` does
not fail on a missing key, so the function returns `True` for every
`order_id`. -/
def delete_order (tbl : Table) (order_id : String) : Bool × Table :=
  (true, { tbl with rows := tbl.rows.filter (fun r => ¬ r.order_id = order_id) })

end OrderManagerDynamoDB

namespace ConversationManager

/-- One row of the SQLite `conversations` table. -/
structure ConvRow where
  id : String
  customer_id : Option String
  customer_name : Option String
  created_at : Nat
  updated_at : Nat
  metadata : Option String
deriving DecidableEq

/-- One row of the SQLite `messages` table (`id` is the AUTOINCREMENT
primary key).  The table declares
`FOREIGN KEY (conversation_id) REFERENCES conversations(id)`, but Python's
`sqlite3` connections leave `PRAGMA foreign_keys` OFF, so the constraint is
never enforced at runtime. -/
structure MsgRow where
  id : Nat
  conversation_id : String
  timestamp : Nat
  sender_type : String
  sender_name : Option String
  content : String
  metadata : Option String
deriving DecidableEq

/-- The SQLite database state used by `ConversationManager`. -/
structure DB where
  conversations : List ConvRow
  messages : List MsgRow
  next_msg_id : Nat
  clock : Nat
deriving DecidableEq

/-- A freshly initialized conversation database. -/
def emptyDB : DB := { conversations := [], messages := [], next_msg_id := 1, clock := 0 }

/-- `ConversationManager.create_conversation` (conversation_manager.py lines
69-99): one `INSERT` with `created_at = updated_at = now`; a duplicate `id`
raises `sqlite3.IntegrityError`, caught and converted to `False` (`now` was
already read once). -/
def create_conversation (db : DB) (conversation_id : String)
    (customer_id customer_name metadata : Option String) : Bool × DB :=
  if db.conversations.any (fun c => c.id = conversation_id) then
    (false, { db with clock := db.clock + 1 })
  else
    let now := db.clock
    (true,
     { db with
       conversations := db.conversations ++
         [{ id := conversation_id, customer_id := customer_id,
            customer_name := customer_name, created_at := now, updated_at := now,
            metadata := metadata }],
       clock := db.clock + 1 })

/-- `ConversationManager.add_message` (lines 101-136).  No existence check
is performed and foreign keys are unenforced, so the `INSERT` always
succeeds (`timestamp` from the first `datetime.now()` call); the subsequent
`UPDATE` of the parent's `updated_at` (a second `datetime.now()` call)
matches zero rows when the conversation does not exist.  Returns
`cursor.lastrowid`, the id of the inserted message. -/
def add_message (db : DB) (conversation_id sender_type content : String)
    (sender_name metadata : Option String) : Nat × DB :=
  let ts := db.clock
  let msg : MsgRow :=
    { id := db.next_msg_id, conversation_id := conversation_id, timestamp := ts,
      sender_type := sender_type, sender_name := sender_name, content := content,
      metadata := metadata }
  let now2 := db.clock + 1
  (db.next_msg_id,
   { conversations := db.conversations.map (fun c =>
       if c.id = conversation_id then { c with updated_at := now2 } else c),
     messages := db.messages ++ [msg],
     next_msg_id := db.next_msg_id + 1,
     clock := db.clock + 2 })

/-- `ConversationManager.get_conversation` (lines 138-167): the row's fields
as a dict, or `None` when absent. -/
def get_conversation (db : DB) (conversation_id : String) : Option ConvRow :=
  db.conversations.find? (fun c => c.id = conversation_id)

/-- `ConversationManager.get_recent_messages` (lines 215-250):
`ORDER BY timestamp DESC LIMIT ?`, then the Python list is reversed to
oldest-first.  The message table is kept in insertion order and every insert
stamps a strictly larger clock value, so ascending timestamp order is
insertion order and the `DESC` ordering is its reverse. -/
def get_recent_messages (db : DB) (conversation_id : String) (limit : Nat) :
    List MsgRow :=
  let ms := db.messages.filter (fun m => m.conversation_id = conversation_id)
  ((ms.reverse).take limit).reverse

/-- The message-rendering loop of `format_history_for_context`, starting
from an accumulator string: one `f"{sender}: {msg['content']}\n"` line per
message with `sender = msg["sender_name"] or msg["sender_type"].upper()`. -/
def renderLines (acc : String) (ms : List MsgRow) : String :=
  ms.foldl (fun a m => a ++ lineOf m.sender_name m.sender_type m.content) acc

/-- `ConversationManager.format_history_for_context` (lines 314-335):
`"No conversation history."` when the recent window is empty, otherwise the
header `"CONVERSATION HISTORY:\n"` followed by one line per message. -/
def format_history_for_context (db : DB) (conversation_id : String) (limit : Nat) :
    String :=
  let ms := get_recent_messages db conversation_id limit
  if ms.isEmpty then "No conversation history."
  else renderLines "CONVERSATION HISTORY:\n" ms

/-- The exception raised by `delete_conversation`'s return expression. -/
inductive PyExc
  | attributeError
deriving DecidableEq

/-- `ConversationManager.delete_conversation` (lines 337-355): both
`DELETE` statements run and are committed, but the return expression reads
`cursor.total_changes` — an attribute `sqlite3.Cursor` does not have (only
`sqlite3.Connection` does) — so every call raises `AttributeError` after
mutating the database, and no boolean is ever returned. -/
def delete_conversation (db : DB) (conversation_id : String) :
    Except PyExc Bool × DB :=
  (Except.error PyExc.attributeError,
   { db with
     conversations := db.conversations.filter (fun c => ¬ c.id = conversation_id),
     messages := db.messages.filter (fun m => ¬ m.conversation_id = conversation_id) })

/-- The statistics dict returned by `get_statistics`. -/
structure ConvStats where
  total_conversations : Nat
  total_messages : Nat
  unique_customers : Nat
deriving DecidableEq

/-- `ConversationManager.get_statistics` (lines 367-393): `COUNT(*)` over
both tables and `COUNT(DISTINCT customer_id)` over non-NULL customer ids. -/
def get_statistics (db : DB) : ConvStats :=
  { total_conversations := db.conversations.length
    total_messages := db.messages.length
    unique_customers := ((db.conversations.filterMap (fun c => c.customer_id)).dedup).length }

end ConversationManager

namespace ConversationManagerS3

/-- Outcome of one S3 `get_object` call: the object's parsed content, the
`NoSuchKey` error, or any other (transport) failure. -/
inductive S3Fetch (α : Type)
  | found (a : α)
  | noSuchKey
  | transportError
deriving DecidableEq

/-- `ConversationManagerS3._load_json_from_s3` (conversation_manager_s3.py
lines 36-46): `NoSuchKey` returns `None`; every other exception is caught by
the blanket `except Exception`, printed, and *also* returned as `None`. -/
def load_json_from_s3 {α : Type} : S3Fetch α → Option α
  | .found a => some a
  | .noSuchKey => none
  | .transportError => none

/-- The conversation metadata document (`{…}/metadata.json`). -/
structure ConvMeta where
  id : String
  customer_id : Option String
  customer_name : Option String
  created_at : Nat
  updated_at : Nat
  metadata : Option String
deriving DecidableEq

/-- One entry of a messages document (`{…}/messages.json`).  The `uuid4`
message id is modelled by a counter — only identity matters. -/
structure S3Msg where
  id : Nat
  conversation_id : String
  timestamp : Nat
  sender_type : String
  sender_name : Option String
  content : String
  metadata : Option String
deriving DecidableEq

/-- The bucket contents under the conversation key layout: per conversation
id one optional metadata document and one optional messages document, plus
the logical clock and the uuid counter. -/
structure Bucket where
  metas : List (String × ConvMeta)
  msgs : List (String × List S3Msg)
  clock : Nat
  next_uuid : Nat
deriving DecidableEq

/-- An empty bucket. -/
def emptyBucket : Bucket := { metas := [], msgs := [], clock := 0, next_uuid := 0 }

/-- `ConversationManagerS3.create_conversation` (lines 62-97): if the
metadata document already exists return `False`; otherwise build the
metadata with `created_at = updated_at = now`, write an empty messages
document, then write the metadata document. -/
def create_conversation (b : Bucket) (conversation_id : String)
    (customer_id customer_name metadata : Option String) : Bool × Bucket :=
  match lookupA b.metas conversation_id with
  | some _ => (false, b)
  | none =>
      let now := b.clock
      let meta : ConvMeta :=
        { id := conversation_id, customer_id := customer_id,
          customer_name := customer_name, created_at := now, updated_at := now,
          metadata := metadata }
      (true,
       { b with
         msgs := putA b.msgs conversation_id [],
         metas := putA b.metas conversation_id meta,
         clock := b.clock + 1 })

/-- `ConversationManagerS3.add_message` (lines 99-146): read the whole
messages document (a missing document becomes an implicit empty list),
append the new message, overwrite the document; then, if the metadata
document exists, stamp its `updated_at` with a second `datetime.now()`.
Returns the new message's id. -/
def add_message (b : Bucket) (conversation_id sender_type content : String)
    (sender_name metadata : Option String) : Nat × Bucket :=
  let ts := b.clock
  let existing := (lookupA b.msgs conversation_id).getD []
  let msg : S3Msg :=
    { id := b.next_uuid, conversation_id := conversation_id, timestamp := ts,
      sender_type := sender_type, sender_name := sender_name, content := content,
      metadata := metadata }
  let b1 : Bucket :=
    { b with
      msgs := putA b.msgs conversation_id (existing ++ [msg]),
      next_uuid := b.next_uuid + 1, clock := b.clock + 1 }
  match lookupA b1.metas conversation_id with
  | some m =>
      (msg.id,
       { b1 with
         metas := putA b1.metas conversation_id { m with updated_at := b1.clock },
         clock := b1.clock + 1 })
  | none => (msg.id, b1)

/-- `ConversationManagerS3.get_conversation` (lines 148-159). -/
def get_conversation (b : Bucket) (conversation_id : String) : Option ConvMeta :=
  lookupA b.metas conversation_id

/-- Python's `a[-limit:]` slice for a non-negative `limit`: the last `limit`
elements — except that `-0` is `0`, so `limit = 0` yields the whole list. -/
def pyLastSlice {α : Type} (l : List α) (limit : Nat) : List α :=
  if limit = 0 then l else l.drop (l.length - limit)

/-- `ConversationManagerS3.get_recent_messages` (lines 190-209): a missing
messages document gives `[]`; otherwise
`all_messages[-limit:] if len(all_messages) > 0 else []`. -/
def get_recent_messages (b : Bucket) (conversation_id : String) (limit : Nat) :
    List S3Msg :=
  match lookupA b.msgs conversation_id with
  | none => []
  | some all => if all.length > 0 then pyLastSlice all limit else []

/-- The message-rendering loop of the S3 `format_history_for_context`
(`msg.get("sender_name") or msg.get("sender_type", "UNKNOWN").upper()`; both
keys are always present in documents this adapter writes). -/
def renderLines (acc : String) (ms : List S3Msg) : String :=
  ms.foldl (fun a m => a ++ lineOf m.sender_name m.sender_type m.content) acc

/-- `ConversationManagerS3.format_history_for_context` (lines 275-296). -/
def format_history_for_context (b : Bucket) (conversation_id : String) (limit : Nat) :
    String :=
  let ms := get_recent_messages b conversation_id limit
  if ms.isEmpty then "No conversation history."
  else renderLines "CONVERSATION HISTORY:\n" ms

end ConversationManagerS3

/-- Well-formedness of a relational order store: every stored timestamp was
read from the clock before its current value.  Holds for every state
reachable from `emptyDB` by the embedded operations. -/
def OrderManager.WF (db : OrderManager.DB) : Prop :=
  ∀ r ∈ db.orders, r.created_at < db.clock ∧ r.updated_at < db.clock

/-- Concatenation of one rendered string per element — the spec's reading
of a rendered message window ("one line per message"). -/
def linesConcat {α : Type} (f : α → String) : List α → String
  | [] => ""
  | m :: ms => f m ++ linesConcat f ms

/-! Helper lemmas. -/

/-- `find?` commutes with a map that preserves the search predicate. -/
theorem find?_map_comm {α : Type} (f : α → α) (p : α → Bool)
    (hf : ∀ a, p (f a) = p a) (l : List α) :
    (l.map f).find? p = (l.find? p).map f := by
  induction l with
  | nil => rfl
  | cons a l ih =>
    cases hpa : p a with
    | true => simp [List.find?_cons, hf a, hpa]
    | false => simp [List.find?_cons, hf a, hpa, ih]

/-- A string-accumulating left fold is the accumulator followed by the
concatenation of the rendered elements. -/
theorem foldl_append_lines {α : Type} (f : α → String) (ms : List α) :
    ∀ acc : String, ms.foldl (fun a m => a ++ f m) acc = acc ++ linesConcat f ms := by
  induction ms with
  | nil =>
      intro acc
      simp [linesConcat]
  | cons m ms ih =>
      intro acc
      simp [linesConcat, ih, String.append_assoc]

/-- After an insert-or-replace at key `k`, looking up `k` finds the new
value (overwrite branch). -/
theorem lookupA_overwrite {α : Type} (k : String) (v : α) :
    ∀ l : List (String × α), l.any (fun p => p.1 = k) = true →
      lookupA (l.map (fun p => if p.1 = k then (k, v) else p)) k = some v := by
  intro l
  induction l with
  | nil => intro h; simp at h
  | cons a l ih =>
      intro h
      by_cases ha : a.1 = k
      · simp [lookupA, List.find?_cons, ha]
      · have h' : l.any (fun p => p.1 = k) = true := by
          simp only [List.any_cons, Bool.or_eq_true, decide_eq_true_eq] at h
          exact (h.resolve_left ha)
        simpa [lookupA, List.find?_cons, ha] using ih h'

/-- After an insert-or-replace at key `k`, looking up `k` finds the new
value. -/
theorem lookupA_putA {α : Type} (k : String) (v : α) (l : List (String × α)) :
    lookupA (putA l k v) k = some v := by
  unfold putA
  by_cases h : l.any (fun p => p.1 = k) = true
  · rw [if_pos h]
    exact lookupA_overwrite k v l h
  · rw [if_neg h]
    have hn : l.find? (fun p => decide (p.1 = k)) = none := by
      rw [List.find?_eq_none]
      intro x hx
      have := (List.any_eq_false.mp (Bool.eq_false_iff.mpr h)) x hx
      simpa using this
    simp [lookupA, List.find?_append, hn, List.find?_cons]

/-- `put_item` followed by a key lookup finds the stored item
(overwrite branch). -/
theorem find?_putItem_overwrite (rec : OrderManagerDynamoDB.DynRecord) :
    ∀ rows : List OrderManagerDynamoDB.DynRecord,
      rows.any (fun r => r.order_id = rec.order_id) = true →
      (rows.map (fun r => if r.order_id = rec.order_id then rec else r)).find?
          (fun r => r.order_id = rec.order_id) = some rec := by
  intro rows
  induction rows with
  | nil => intro h; simp at h
  | cons a l ih =>
      intro h
      by_cases ha : a.order_id = rec.order_id
      · simp [List.find?_cons, ha]
      · have h' : l.any (fun r => r.order_id = rec.order_id) = true := by
          simp only [List.any_cons, Bool.or_eq_true, decide_eq_true_eq] at h
          exact (h.resolve_left ha)
        simpa [List.find?_cons, ha] using ih h'

/-- `put_item` followed by a key lookup finds the stored item. -/
theorem find?_putItem (rec : OrderManagerDynamoDB.DynRecord)
    (rows : List OrderManagerDynamoDB.DynRecord) :
    (OrderManagerDynamoDB.putItem rows rec).find? (fun r => r.order_id = rec.order_id) =
      some rec := by
  unfold OrderManagerDynamoDB.putItem
  by_cases h : rows.any (fun r => r.order_id = rec.order_id) = true
  · rw [if_pos h]
    exact find?_putItem_overwrite rec rows h
  · rw [if_neg h]
    have hn : rows.find? (fun r => decide (r.order_id = rec.order_id)) = none := by
      rw [List.find?_eq_none]
      intro x hx
      have := (List.any_eq_false.mp (Bool.eq_false_iff.mpr h)) x hx
      simpa using this
    simp [List.find?_append, hn, List.find?_cons]

/-! Claim theorems. -/

/-- C1 counterexample: on the Wide-Column backend, `create_order` on an
`order_id` that already exists returns `true` (the claim demands `false`)
and overwrites the stored record — the customer name changes from the
original "Alice" to the second caller's "Bob". -/
theorem C1_counterexample :
    let t1 := (OrderManagerDynamoDB.create_order OrderManagerDynamoDB.emptyTable
      "O1" "cust-1" "Alice" [] 10 none none none).2
    let p := OrderManagerDynamoDB.create_order t1 "O1" "cust-2" "Bob" [] 20 none none none
    p.1 = true ∧
    (t1.rows.map fun r => r.customer_name) = [some "Alice"] ∧
    (p.2.rows.map fun r => r.customer_name) = [some "Bob"] := by
  exact ⟨rfl, rfl, rfl⟩

/-- C1 amended: on the Relational backend, `create_order` on an existing
`order_id` returns `false` and leaves both tables unchanged; on the
Wide-Column backend it returns `true` (an unconditional `put_item`
overwrite), so the collision is not signaled at all. -/
theorem C1_amended :
    (∀ (db : OrderManager.DB) oid cid cn items tp cv ert md,
        (∃ r ∈ db.orders, r.order_id = oid) →
        (OrderManager.create_order db oid cid cn items tp cv ert md).1 = false ∧
        (OrderManager.create_order db oid cid cn items tp cv ert md).2.orders = db.orders ∧
        (OrderManager.create_order db oid cid cn items tp cv ert md).2.order_items =
          db.order_items) ∧
    (∀ (tbl : OrderManagerDynamoDB.Table) oid cid cn items tp cv ert md,
        (OrderManagerDynamoDB.create_order tbl oid cid cn items tp cv ert md).1 = true) := by
  constructor
  · intro db oid cid cn items tp cv ert md h
    have hc : db.orders.any (fun r => r.order_id = oid) = true := by
      rcases h with ⟨r, hr, hid⟩
      exact List.any_eq_true.mpr ⟨r, hr, by simpa using hid⟩
    refine ⟨?_, ?_, ?_⟩ <;> simp [OrderManager.create_order, hc]
  · intro tbl oid cid cn items tp cv ert md
    rfl

/-- C1 witness: a concrete Relational store holding order "O1"; re-creating
"O1" returns `false`. -/
theorem C1_witness :
    (∃ r ∈ (OrderManager.create_order OrderManager.emptyDB "O1" none none [] 10
        none none none).2.orders, r.order_id = "O1") ∧
    (OrderManager.create_order
      (OrderManager.create_order OrderManager.emptyDB "O1" none none [] 10 none none none).2
      "O1" none none [] 20 none none none).1 = false := by
  have hex : ∃ r ∈ (OrderManager.create_order OrderManager.emptyDB "O1" none none [] 10
      none none none).2.orders, r.order_id = "O1" := by
    simp [OrderManager.create_order, OrderManager.emptyDB, OrderManager.insertItems]
  exact ⟨hex, (C1_amended.1 _ "O1" none none [] 20 none none none hex).1⟩

/-- C2: the code at the failing input.  On a freshly initialized Relational
store, `add_message("ghost", "user", "hello")` — with no conversation rows
at all — inserts the message row (`conversation_id = "ghost"`) and returns
message id 1 instead of failing with `NotFound`: no existence check is
performed and the declared foreign key is not enforced (`PRAGMA
foreign_keys` defaults to OFF in `sqlite3`). -/
theorem C2_code_eval :
    (ConversationManager.add_message ConversationManager.emptyDB
      "ghost" "user" "hello" none none).1 = 1 ∧
    ((ConversationManager.add_message ConversationManager.emptyDB
      "ghost" "user" "hello" none none).2.messages.map
        fun m => (m.id, m.conversation_id, m.content)) = [(1, "ghost", "hello")] ∧
    (ConversationManager.add_message ConversationManager.emptyDB
      "ghost" "user" "hello" none none).2.conversations = [] := by
  exact ⟨rfl, rfl, rfl⟩

/-- C3 counterexample: with order "O1" present in the Wide-Column store, a
read during a transport failure returns `None` — exactly the `NotFound`
signal — while a healthy read finds the order; and the Object-Store loader
maps a transport failure to the same `None` as a missing key. -/
theorem C3_counterexample :
    ConversationManagerS3.load_json_from_s3
      (ConversationManagerS3.S3Fetch.transportError :
        ConversationManagerS3.S3Fetch ConversationManagerS3.ConvMeta) = none ∧
    ConversationManagerS3.load_json_from_s3
      (ConversationManagerS3.S3Fetch.noSuchKey :
        ConversationManagerS3.S3Fetch ConversationManagerS3.ConvMeta) = none ∧
    (OrderManagerDynamoDB.get_order false
      (OrderManagerDynamoDB.create_order OrderManagerDynamoDB.emptyTable
        "O1" "c" "n" [] 1 none none none).2 "O1") = none ∧
    (OrderManagerDynamoDB.get_order true
      (OrderManagerDynamoDB.create_order OrderManagerDynamoDB.emptyTable
        "O1" "c" "n" [] 1 none none none).2 "O1").isSome = true := by
  exact ⟨rfl, rfl, rfl, rfl⟩

/-- C3 amended: both adapters catch every transport failure on reads and
return `None`, the same value that signals absence — no distinct
`BackendUnavailable` condition reaches the caller. -/
theorem C3_amended :
    (∀ (α : Type),
        ConversationManagerS3.load_json_from_s3
          (ConversationManagerS3.S3Fetch.transportError : ConversationManagerS3.S3Fetch α) =
          none ∧
        ConversationManagerS3.load_json_from_s3
          (ConversationManagerS3.S3Fetch.noSuchKey : ConversationManagerS3.S3Fetch α) =
          none) ∧
    (∀ (tbl : OrderManagerDynamoDB.Table) (oid : String),
        OrderManagerDynamoDB.get_order false tbl oid = none) := by
  exact ⟨fun _ => ⟨rfl, rfl⟩, fun _ _ => rfl⟩

/-- C6 counterexample: on the Wide-Column backend, `update_order_status` on
an empty store returns `true` and creates a partial order item that no
`create` ever produced (only the key, the status and `updated_at`). -/
theorem C6_counterexample :
    let p := OrderManagerDynamoDB.update_order_status OrderManagerDynamoDB.emptyTable
      "X" OrderStatus.CONFIRMED
    p.1 = true ∧
    p.2.rows = [OrderManagerDynamoDB.upsertRecord "X" "Confirmed" 0] := by
  exact ⟨rfl, rfl⟩

/-- C8 counterexample: a conversation with one appended message; at
`limit = 0` the claim demands `min(0, 1) = 0` messages, the Relational
backend returns 0, but the Object-Store backend returns the whole list
(Python's `[-0:]` slice), i.e. 1 message. -/
theorem C8_counterexample :
    let b1 := (ConversationManagerS3.create_conversation ConversationManagerS3.emptyBucket
      "c1" none none none).2
    let b2 := (ConversationManagerS3.add_message b1 "c1" "user" "hi" none none).2
    (ConversationManagerS3.get_recent_messages b2 "c1" 0).length = 1 ∧
    ConversationManager.get_recent_messages
      (ConversationManager.add_message
        (ConversationManager.create_conversation ConversationManager.emptyDB
          "c1" none none none).2 "c1" "user" "hi" none none).2 "c1" 0 = [] := by
  exact ⟨rfl, rfl⟩

/-- C9 counterexample: the rendered history is not just the
`"SENDER: content"` lines — a `"CONVERSATION HISTORY:\n"` header precedes
them. -/
theorem C9_counterexample :
    let db1 := (ConversationManager.create_conversation ConversationManager.emptyDB
      "c1" none none none).2
    let db2 := (ConversationManager.add_message db1 "c1" "user" "hi" none none).2
    ConversationManager.format_history_for_context db2 "c1" 10 =
      "CONVERSATION HISTORY:\nUSER: hi\n" ∧
    ¬ ConversationManager.format_history_for_context db2 "c1" 10 = "USER: hi\n" := by
  exact ⟨by decide, by decide⟩

/-- C10 counterexample: a Relational conversation store holding only an
orphan message row for "c1" (no conversation row).  The claim says the
delete returns `true`; in fact `delete_conversation` performs the deletes
and then raises `AttributeError` (`sqlite3.Cursor` has no `total_changes`
attribute), never returning a boolean. -/
theorem C10_counterexample :
    let db := (ConversationManager.add_message ConversationManager.emptyDB
      "c1" "user" "hi" none none).2
    db.conversations = [] ∧
    db.messages.length = 1 ∧
    (ConversationManager.delete_conversation db "c1").1 =
      Except.error ConversationManager.PyExc.attributeError ∧
    ¬ (ConversationManager.delete_conversation db "c1").1 = Except.ok true := by
  refine ⟨rfl, rfl, rfl, fun h => Except.noConfusion h⟩

/-- C10 amended: the Relational order delete returns `true` iff an order
row with that id existed (orphan item rows are irrelevant — only the final
`DELETE`'s row count is inspected); the Wide-Column delete returns `true`
for every `order_id`; the Relational conversation delete never returns a
boolean at all — it deletes, commits, and then raises `AttributeError` on
every call. -/
theorem C10_amended :
    (∀ (db : OrderManager.DB) (oid : String),
        (OrderManager.delete_order db oid).1 = true ↔ ∃ r ∈ db.orders, r.order_id = oid) ∧
    (∀ (tbl : OrderManagerDynamoDB.Table) (oid : String),
        (OrderManagerDynamoDB.delete_order tbl oid).1 = true) ∧
    (∀ (db : ConversationManager.DB) (cid : String),
        (ConversationManager.delete_conversation db cid).1 =
          Except.error ConversationManager.PyExc.attributeError) := by
  refine ⟨?_, fun _ _ => rfl, fun _ _ => rfl⟩
  intro db oid
  simp only [OrderManager.delete_order, decide_eq_true_iff]
  constructor
  · intro h
    have hne : db.orders.filter (fun r => r.order_id = oid) ≠ [] := by
      intro hnil
      rw [hnil] at h
      exact Nat.lt_irrefl 0 h
    rcases List.exists_mem_of_ne_nil _ hne with ⟨r, hr⟩
    rcases List.mem_filter.mp hr with ⟨hmem, hp⟩
    exact ⟨r, hmem, by simpa using hp⟩
  · rintro ⟨r, hmem, hp⟩
    have : r ∈ db.orders.filter (fun r => r.order_id = oid) :=
      List.mem_filter.mpr ⟨hmem, by simpa using hp⟩
    exact List.length_pos.mpr (List.ne_nil_of_mem this)

/-- The item rows inserted by `create_order` carry
`subtotal = unit_price * quantity`, in input order. -/
theorem insertItems_map_view (oid : String) :
    ∀ (items : List SrcItem) (n : Nat),
      (OrderManager.insertItems oid items n).1.map OrderManager.itemToView =
        items.map (fun it =>
          ({ item_name := it.item_name, quantity := it.quantity,
             unit_price := it.unit_price,
             subtotal := it.unit_price * it.quantity } : OrderManager.ItemView)) := by
  intro items
  induction items with
  | nil => intro n; rfl
  | cons it items ih =>
      intro n
      simp [OrderManager.insertItems, OrderManager.itemToView, ih]

/-- Every item row inserted by `create_order` belongs to the created
order. -/
theorem insertItems_order_id (oid : String) :
    ∀ (items : List SrcItem) (n : Nat) (i : OrderManager.ItemRow),
      i ∈ (OrderManager.insertItems oid items n).1 → i.order_id = oid := by
  intro items
  induction items with
  | nil => intro n i h; simp [OrderManager.insertItems] at h
  | cons it items ih =>
      intro n i h
      rcases List.mem_cons.mp h with h | h
      · rw [h]
      · exact ih (n + 1) i h

/-- C4 counterexample: the Relational store accepts the repository's own
test input — items Coffee 2 × 3.50 and Sandwich 1 × 8.99 with
`total_price = 16.99` — and stores `total_price = 16.99`, although the
stored subtotals sum (rounded) to 15.99: the invariant is not enforced, and
the claimed example total 16.99 is not the rounded sum of the subtotals. -/
theorem C4_counterexample :
    let p := OrderManager.create_order OrderManager.emptyDB "ORD-001"
      (some "CUST-001") (some "Alice Johnson")
      [{ item_name := "Coffee", quantity := 2, unit_price := 3.50 },
       { item_name := "Sandwich", quantity := 1, unit_price := 8.99 }]
      16.99 none none none
    p.1 = true ∧
    (p.2.orders.map fun r => r.total_price) = [16.99] ∧
    round2 ((p.2.order_items.map fun i => i.subtotal).sum) = 15.99 ∧
    ¬ (16.99 : Price) = 15.99 := by
  refine ⟨rfl, rfl, ?_, by norm_num⟩
  norm_num [OrderManager.create_order, OrderManager.emptyDB, OrderManager.insertItems,
    round2, round_eq]

/-- C4 amended: on the Relational backend a successful `create_order` stores
per-item `subtotal = unit_price * quantity`, but `total_price` is stored
exactly as the caller passed it and is never validated against the items
(the Wide-Column backend stores the caller's item list verbatim, computing
no subtotals at all); the correctly rounded total of the example items is
15.99, not 16.99. -/
theorem C4_amended :
    (∀ (db : OrderManager.DB) oid cid cn items tp cv ert md,
        (∀ r ∈ db.orders, ¬ r.order_id = oid) →
        db.order_items.filter (fun i => i.order_id = oid) = [] →
        (OrderManager.create_order db oid cid cn items tp cv ert md).1 = true ∧
        ∃ v, OrderManager.get_order
            (OrderManager.create_order db oid cid cn items tp cv ert md).2 oid = some v ∧
          v.total_price = tp ∧
          v.items = items.map (fun it =>
            ({ item_name := it.item_name, quantity := it.quantity,
               unit_price := it.unit_price,
               subtotal := it.unit_price * it.quantity } : OrderManager.ItemView))) ∧
    (∀ (tbl : OrderManagerDynamoDB.Table) oid cid cn items tp cv ert md,
        ∃ r, OrderManagerDynamoDB.get_order true
            (OrderManagerDynamoDB.create_order tbl oid cid cn items tp cv ert md).2 oid =
          some r ∧ r.items = some items ∧ r.total_price = some tp) ∧
    round2 ((2 : ℚ) * 3.50 + 1 * 8.99) = 15.99 := by
  refine ⟨?_, ?_, by norm_num [round2, round_eq]⟩
  · intro db oid cid cn items tp cv ert md hno hitems
    have hc : db.orders.any (fun r => r.order_id = oid) = false := by
      rw [List.any_eq_false]
      intro r hr
      simpa using hno r hr
    have hfind : db.orders.find? (fun r => decide (r.order_id = oid)) = none := by
      rw [List.find?_eq_none]
      intro r hr
      simpa using hno r hr
    have hself : (OrderManager.insertItems oid items db.next_item_id).1.filter
        (fun i => i.order_id = oid) =
        (OrderManager.insertItems oid items db.next_item_id).1 := by
      rw [List.filter_eq_self]
      intro i hi
      simpa using insertItems_order_id oid items db.next_item_id i hi
    have hget : OrderManager.get_order
        (OrderManager.create_order db oid cid cn items tp cv ert md).2 oid =
        some (OrderManager.rowToView
          { order_id := oid, customer_id := cid, customer_name := cn,
            total_price := tp, status := OrderStatus.PENDING.value,
            created_at := db.clock, updated_at := db.clock,
            estimated_ready_time := ert, conversation_id := cv, metadata := md }
          ((OrderManager.insertItems oid items db.next_item_id).1.map
            OrderManager.itemToView)) := by
      simp [OrderManager.create_order, hc, OrderManager.get_order, List.find?_append,
        hfind, List.filter_append, hitems, hself]
    refine ⟨?_, _, hget, rfl, ?_⟩
    · simp [OrderManager.create_order, hc]
    · simp only [OrderManager.rowToView]
      rw [insertItems_map_view]
  · intro tbl oid cid cn items tp cv ert md
    refine ⟨{ order_id := oid, customer_id := some cid, customer_name := some cn,
              total_price := some tp, status := some OrderStatus.PENDING.value,
              created_at := some tbl.clock, updated_at := some tbl.clock,
              items := some items, estimated_ready_time := pyTruthy ert,
              conversation_id := pyTruthy cv, metadata := pyTruthy md }, ?_, rfl, rfl⟩
    simp only [OrderManagerDynamoDB.get_order, OrderManagerDynamoDB.create_order, if_true]
    exact find?_putItem
      { order_id := oid, customer_id := some cid, customer_name := some cn,
        total_price := some tp, status := some OrderStatus.PENDING.value,
        created_at := some tbl.clock, updated_at := some tbl.clock,
        items := some items, estimated_ready_time := pyTruthy ert,
        conversation_id := pyTruthy cv, metadata := pyTruthy md } tbl.rows

/-- C4 witness: the amended statement at the example items on an empty
store. -/
theorem C4_witness :
    (∀ r ∈ OrderManager.emptyDB.orders, ¬ r.order_id = "ORD-001") ∧
    (OrderManager.create_order OrderManager.emptyDB "ORD-001" (some "CUST-001")
      (some "Alice Johnson")
      [{ item_name := "Coffee", quantity := 2, unit_price := 3.50 },
       { item_name := "Sandwich", quantity := 1, unit_price := 8.99 }]
      16.99 none none none).1 = true := by
  have h1 : ∀ r ∈ OrderManager.emptyDB.orders, ¬ r.order_id = "ORD-001" := by
    intro r hr
    simp [OrderManager.emptyDB] at hr
  have h2 : OrderManager.emptyDB.order_items.filter
      (fun i => i.order_id = "ORD-001") = [] := rfl
  exact ⟨h1, (C4_amended.1 OrderManager.emptyDB "ORD-001" (some "CUST-001")
    (some "Alice Johnson") _ 16.99 none none none h1 h2).1⟩

/-- C5: the code at the failing input.  A Wide-Column store holding two
orders whose scan comes back in two pages (one item per page): the
continuation loop accumulates revenue, the status breakdown and the
customer set across both pages, but `total_orders` is taken from the first
page only — the statistics report 1 order where ground truth is 2. -/
theorem C5_code_eval :
    OrderManagerDynamoDB.Paginates
      ((OrderManagerDynamoDB.create_order
        (OrderManagerDynamoDB.create_order OrderManagerDynamoDB.emptyTable
          "O1" "cust-1" "Alice" [] 10 none none none).2
        "O2" "cust-2" "Bob" [] 5 none none none).2.rows.map (fun r => [r]))
      (OrderManagerDynamoDB.create_order
        (OrderManagerDynamoDB.create_order OrderManagerDynamoDB.emptyTable
          "O1" "cust-1" "Alice" [] 10 none none none).2
        "O2" "cust-2" "Bob" [] 5 none none none).2 ∧
    (OrderManagerDynamoDB.create_order
      (OrderManagerDynamoDB.create_order OrderManagerDynamoDB.emptyTable
        "O1" "cust-1" "Alice" [] 10 none none none).2
      "O2" "cust-2" "Bob" [] 5 none none none).2.rows.length = 2 ∧
    (OrderManagerDynamoDB.get_order_statistics
      ((OrderManagerDynamoDB.create_order
        (OrderManagerDynamoDB.create_order OrderManagerDynamoDB.emptyTable
          "O1" "cust-1" "Alice" [] 10 none none none).2
        "O2" "cust-2" "Bob" [] 5 none none none).2.rows.map
          (fun r => [r]))).total_orders = 1 ∧
    (OrderManagerDynamoDB.get_order_statistics
      ((OrderManagerDynamoDB.create_order
        (OrderManagerDynamoDB.create_order OrderManagerDynamoDB.emptyTable
          "O1" "cust-1" "Alice" [] 10 none none none).2
        "O2" "cust-2" "Bob" [] 5 none none none).2.rows.map
          (fun r => [r]))).total_revenue = 15 ∧
    (OrderManagerDynamoDB.get_order_statistics
      ((OrderManagerDynamoDB.create_order
        (OrderManagerDynamoDB.create_order OrderManagerDynamoDB.emptyTable
          "O1" "cust-1" "Alice" [] 10 none none none).2
        "O2" "cust-2" "Bob" [] 5 none none none).2.rows.map
          (fun r => [r]))).unique_customers = 2 ∧
    lookupA (OrderManagerDynamoDB.get_order_statistics
      ((OrderManagerDynamoDB.create_order
        (OrderManagerDynamoDB.create_order OrderManagerDynamoDB.emptyTable
          "O1" "cust-1" "Alice" [] 10 none none none).2
        "O2" "cust-2" "Bob" [] 5 none none none).2.rows.map
          (fun r => [r]))).status_breakdown "Pending" = some 2 := by
  refine ⟨rfl, rfl, rfl, ?_, rfl, rfl⟩
  show (OrderManagerDynamoDB.get_order_statistics
    [[{ order_id := "O1", customer_id := some "cust-1", customer_name := some "Alice",
        total_price := some 10, status := some OrderStatus.PENDING.value,
        created_at := some 0, updated_at := some 0, items := some [],
        estimated_ready_time := none, conversation_id := none, metadata := none }],
     [{ order_id := "O2", customer_id := some "cust-2", customer_name := some "Bob",
        total_price := some 5, status := some OrderStatus.PENDING.value,
        created_at := some 1, updated_at := some 1, items := some [],
        estimated_ready_time := none, conversation_id := none, metadata := none }]]).total_revenue
    = 15
  norm_num [OrderManagerDynamoDB.get_order_statistics, OrderManagerDynamoDB.statStep,
    OrderManagerDynamoDB.bumpCount, OrderManagerDynamoDB.addCustomer, pyTruthy,
    round2, round_eq]

/-- C6 amended: on the Relational backend `update_order_status` of an
existing order returns `true`, changes exactly the order's `status` and
`updated_at` (items and all other orders are untouched), and the new
`updated_at` (the current clock) is ≥ the prior value in every well-formed
store; on a nonexistent id it returns `false` and changes no order row.  On
the Wide-Column backend, however, `update_order_status` of a nonexistent id
returns `true` and creates a partial item, so it can bring an order into
existence that no `create` produced. -/
theorem C6_amended :
    (∀ (db : OrderManager.DB) (oid : String) (st : OrderStatus)
        (v : OrderManager.OrderView),
        OrderManager.get_order db oid = some v →
        (OrderManager.update_order_status db oid st).1 = true ∧
        OrderManager.get_order (OrderManager.update_order_status db oid st).2 oid =
          some { v with status := st.value, updated_at := db.clock } ∧
        (∀ oid2, ¬ oid2 = oid →
          OrderManager.get_order (OrderManager.update_order_status db oid st).2 oid2 =
            OrderManager.get_order db oid2) ∧
        (OrderManager.update_order_status db oid st).2.order_items = db.order_items ∧
        (OrderManager.WF db → v.updated_at < db.clock)) ∧
    (∀ (db : OrderManager.DB) (oid : String) (st : OrderStatus),
        OrderManager.get_order db oid = none →
        (OrderManager.update_order_status db oid st).1 = false ∧
        (OrderManager.update_order_status db oid st).2.orders = db.orders) ∧
    (∀ (tbl : OrderManagerDynamoDB.Table) (oid : String) (st : OrderStatus),
        (∀ r ∈ tbl.rows, ¬ r.order_id = oid) →
        (OrderManagerDynamoDB.update_order_status tbl oid st).1 = true ∧
        (OrderManagerDynamoDB.update_order_status tbl oid st).2.rows =
          tbl.rows ++ [OrderManagerDynamoDB.upsertRecord oid st.value tbl.clock]) := by
  refine ⟨?_, ?_, ?_⟩
  · intro db oid st v hv
    unfold OrderManager.get_order at hv
    cases hf : db.orders.find? (fun r => decide (r.order_id = oid)) with
    | none => rw [hf] at hv; exact absurd hv (by simp)
    | some r0 =>
        rw [hf] at hv
        have hv' : OrderManager.rowToView r0
            ((db.order_items.filter (fun i => i.order_id = oid)).map
              OrderManager.itemToView) = v := by
          simpa using hv
        have hr0 : r0.order_id = oid := by simpa using List.find?_some hf
        have hpf : ∀ a : OrderManager.OrderRow,
            (decide ((if a.order_id = oid then
                ({ a with status := st.value, updated_at := db.clock } : OrderManager.OrderRow)
              else a).order_id = oid)) = decide (a.order_id = oid) := by
          intro a
          by_cases h : a.order_id = oid <;> simp [h]
        refine ⟨?_, ?_, ?_, rfl, ?_⟩
        · exact List.any_eq_true.mpr ⟨r0, List.mem_of_find?_eq_some hf, by simpa using hr0⟩
        · unfold OrderManager.get_order OrderManager.update_order_status
          rw [find?_map_comm _ _ hpf, hf]
          subst hv'
          simp only [Option.map_some']
          rw [if_pos hr0]
          cases r0
          simp [OrderManager.rowToView]
        · intro oid2 hne
          have hpf2 : ∀ a : OrderManager.OrderRow,
              (decide ((if a.order_id = oid then
                  ({ a with status := st.value, updated_at := db.clock } :
                    OrderManager.OrderRow)
                else a).order_id = oid2)) = decide (a.order_id = oid2) := by
            intro a
            by_cases h : a.order_id = oid <;> simp [h]
          unfold OrderManager.get_order OrderManager.update_order_status
          rw [find?_map_comm _ _ hpf2]
          cases hf2 : db.orders.find? (fun r => decide (r.order_id = oid2)) with
          | none => simp
          | some r2 =>
              have hr2 : r2.order_id = oid2 := by simpa using List.find?_some hf2
              have : (if r2.order_id = oid then
                  ({ r2 with status := st.value, updated_at := db.clock } :
                    OrderManager.OrderRow)
                else r2) = r2 := by
                rw [if_neg]
                rw [hr2]
                exact hne
              simp [this]
        · intro hwf
          have := (hwf r0 (List.mem_of_find?_eq_some hf)).2
          rw [← hv']
          exact this
  · intro db oid st hv
    unfold OrderManager.get_order at hv
    cases hf : db.orders.find? (fun r => decide (r.order_id = oid)) with
    | some r0 => rw [hf] at hv; exact absurd hv (by simp)
    | none =>
        have hall : ∀ r ∈ db.orders, ¬ r.order_id = oid := by
          intro r hr
          have := List.find?_eq_none.mp hf r hr
          simpa using this
        constructor
        · unfold OrderManager.update_order_status
          simp only []
          rw [List.any_eq_false]
          intro r hr
          simpa using hall r hr
        · unfold OrderManager.update_order_status
          simp only []
          have : ∀ r ∈ db.orders,
              (if r.order_id = oid then
                ({ r with status := st.value, updated_at := db.clock } :
                  OrderManager.OrderRow)
              else r) = r := by
            intro r hr
            exact if_neg (hall r hr)
          exact (List.map_congr_left this).trans (List.map_id _)
  · intro tbl oid st hno
    have hc : tbl.rows.any (fun r => r.order_id = oid) = false := by
      rw [List.any_eq_false]
      intro r hr
      simpa using hno r hr
    exact ⟨rfl, by simp [OrderManagerDynamoDB.update_order_status, hc]⟩

/-- C6 witness: a concrete store holding order "O1"; updating its status
satisfies every part of the amended statement's hypotheses. -/
theorem C6_witness :
    (OrderManager.get_order
      (OrderManager.create_order OrderManager.emptyDB "O1" none none [] 10
        none none none).2 "O1" =
      some { order_id := "O1", customer_id := none, customer_name := none,
             total_price := 10, status := "Pending", created_at := 0, updated_at := 0,
             estimated_ready_time := none, conversation_id := none, metadata := none,
             items := [] }) ∧
    (OrderManager.update_order_status
      (OrderManager.create_order OrderManager.emptyDB "O1" none none [] 10
        none none none).2 "O1" OrderStatus.CONFIRMED).1 = true ∧
    (OrderManager.get_order OrderManager.emptyDB "O2" = none ∧
      (OrderManager.update_order_status OrderManager.emptyDB "O2"
        OrderStatus.READY).1 = false) ∧
    (OrderManagerDynamoDB.update_order_status OrderManagerDynamoDB.emptyTable "X"
      OrderStatus.CONFIRMED).1 = true := by
  have hget : OrderManager.get_order
      (OrderManager.create_order OrderManager.emptyDB "O1" none none [] 10
        none none none).2 "O1" =
      some { order_id := "O1", customer_id := none, customer_name := none,
             total_price := 10, status := "Pending", created_at := 0, updated_at := 0,
             estimated_ready_time := none, conversation_id := none, metadata := none,
             items := [] } := rfl
  have hnone : OrderManager.get_order OrderManager.emptyDB "O2" = none := rfl
  have hno : ∀ r ∈ OrderManagerDynamoDB.emptyTable.rows, ¬ r.order_id = "X" := by
    intro r hr
    simp [OrderManagerDynamoDB.emptyTable] at hr
  exact ⟨hget, (C6_amended.1 _ "O1" OrderStatus.CONFIRMED _ hget).1,
    ⟨hnone, (C6_amended.2.1 _ "O2" OrderStatus.READY hnone).1⟩,
    (C6_amended.2.2 _ "X" OrderStatus.CONFIRMED hno).1⟩

/-- C7: on both conversation backends, `create` of a fresh id succeeds and a
subsequent `get` returns a conversation with the matching id and
`created_at = updated_at`; `create` on an already-used id returns `false`
and mutates nothing. -/
theorem C7 :
    (∀ (db : ConversationManager.DB) cid cu cn md,
        (∀ c ∈ db.conversations, ¬ c.id = cid) →
        (ConversationManager.create_conversation db cid cu cn md).1 = true ∧
        ∃ v, ConversationManager.get_conversation
            (ConversationManager.create_conversation db cid cu cn md).2 cid = some v ∧
          v.id = cid ∧ v.created_at = v.updated_at) ∧
    (∀ (db : ConversationManager.DB) cid cu cn md c,
        c ∈ db.conversations → c.id = cid →
        (ConversationManager.create_conversation db cid cu cn md).1 = false ∧
        (ConversationManager.create_conversation db cid cu cn md).2.conversations =
          db.conversations ∧
        (ConversationManager.create_conversation db cid cu cn md).2.messages =
          db.messages) ∧
    (∀ (b : ConversationManagerS3.Bucket) cid cu cn md,
        ConversationManagerS3.get_conversation b cid = none →
        (ConversationManagerS3.create_conversation b cid cu cn md).1 = true ∧
        ∃ v, ConversationManagerS3.get_conversation
            (ConversationManagerS3.create_conversation b cid cu cn md).2 cid = some v ∧
          v.id = cid ∧ v.created_at = v.updated_at) ∧
    (∀ (b : ConversationManagerS3.Bucket) cid cu cn md m,
        ConversationManagerS3.get_conversation b cid = some m →
        ConversationManagerS3.create_conversation b cid cu cn md = (false, b)) := by
  refine ⟨?_, ?_, ?_, ?_⟩
  · intro db cid cu cn md hno
    have hc : db.conversations.any (fun c => c.id = cid) = false := by
      rw [List.any_eq_false]
      intro c hcm
      simpa using hno c hcm
    have hfind : db.conversations.find? (fun c => decide (c.id = cid)) = none := by
      rw [List.find?_eq_none]
      intro c hcm
      simpa using hno c hcm
    refine ⟨by simp [ConversationManager.create_conversation, hc],
      { id := cid, customer_id := cu, customer_name := cn, created_at := db.clock,
        updated_at := db.clock, metadata := md }, ?_, rfl, rfl⟩
    simp [ConversationManager.create_conversation, hc,
      ConversationManager.get_conversation, List.find?_append, hfind]
  · intro db cid cu cn md c hcm hcid
    have hc : db.conversations.any (fun c => c.id = cid) = true :=
      List.any_eq_true.mpr ⟨c, hcm, by simpa using hcid⟩
    exact ⟨by simp [ConversationManager.create_conversation, hc],
      by simp [ConversationManager.create_conversation, hc],
      by simp [ConversationManager.create_conversation, hc]⟩
  · intro b cid cu cn md hnone
    have hnone' : lookupA b.metas cid = none := hnone
    refine ⟨?_,
      { id := cid, customer_id := cu, customer_name := cn, created_at := b.clock,
        updated_at := b.clock, metadata := md }, ?_, rfl, rfl⟩
    · simp [ConversationManagerS3.create_conversation, hnone']
    · simp only [ConversationManagerS3.create_conversation, hnone',
        ConversationManagerS3.get_conversation]
      exact lookupA_putA cid _ b.metas
  · intro b cid cu cn md m hm
    have hm' : lookupA b.metas cid = some m := hm
    simp [ConversationManagerS3.create_conversation, hm']

/-- C7 witness: both backends at concrete stores — an empty store for the
fresh-create part and a store already holding conversation "c1" for the
duplicate-create part. -/
theorem C7_witness :
    (∀ c ∈ ConversationManager.emptyDB.conversations, ¬ c.id = "c1") ∧
    (ConversationManager.create_conversation ConversationManager.emptyDB
      "c1" none none none).1 = true ∧
    (ConversationManager.create_conversation
      (ConversationManager.create_conversation ConversationManager.emptyDB
        "c1" none none none).2 "c1" (some "x") none none).1 = false ∧
    (ConversationManagerS3.create_conversation ConversationManagerS3.emptyBucket
      "c1" none none none).1 = true ∧
    (ConversationManagerS3.create_conversation
      (ConversationManagerS3.create_conversation ConversationManagerS3.emptyBucket
        "c1" none none none).2 "c1" (some "x") none none) =
      (false, (ConversationManagerS3.create_conversation ConversationManagerS3.emptyBucket
        "c1" none none none).2) := by
  have hno : ∀ c ∈ ConversationManager.emptyDB.conversations, ¬ c.id = "c1" := by
    intro c hc
    simp [ConversationManager.emptyDB] at hc
  have hmem : ({ id := "c1", customer_id := none, customer_name := none,
                 created_at := 0, updated_at := 0, metadata := none } :
      ConversationManager.ConvRow) ∈
      (ConversationManager.create_conversation ConversationManager.emptyDB
        "c1" none none none).2.conversations := by
    simp [ConversationManager.create_conversation, ConversationManager.emptyDB]
  have hs3none : ConversationManagerS3.get_conversation ConversationManagerS3.emptyBucket
      "c1" = none := rfl
  have hs3some : ConversationManagerS3.get_conversation
      (ConversationManagerS3.create_conversation ConversationManagerS3.emptyBucket
        "c1" none none none).2 "c1" =
      some { id := "c1", customer_id := none, customer_name := none,
             created_at := 0, updated_at := 0, metadata := none } := rfl
  exact ⟨hno, (C7.1 _ "c1" none none none hno).1,
    (C7.2.1 _ "c1" (some "x") none none _ hmem rfl).1,
    (C7.2.2.1 _ "c1" none none none hs3none).1,
    C7.2.2.2 _ "c1" (some "x") none none _ hs3some⟩

/-- C8 amended: for every limit ≥ 1 both backends return the last
`min(limit, N)` messages in append order (`List.rtake`); at `limit = 0` the
Relational backend returns the empty window (SQL `LIMIT 0`), but the
Object-Store backend returns the *entire* message list (Python's `[-0:]`
slice). -/
theorem C8_amended :
    (∀ (db : ConversationManager.DB) (cid : String) (n : Nat),
        ConversationManager.get_recent_messages db cid n =
          (db.messages.filter (fun m => m.conversation_id = cid)).rtake n) ∧
    (∀ (b : ConversationManagerS3.Bucket) (cid : String) (all : List
        ConversationManagerS3.S3Msg) (n : Nat),
        1 ≤ n → lookupA b.msgs cid = some all →
        ConversationManagerS3.get_recent_messages b cid n = all.rtake n) ∧
    (∀ (b : ConversationManagerS3.Bucket) (cid : String) (all : List
        ConversationManagerS3.S3Msg),
        lookupA b.msgs cid = some all →
        ConversationManagerS3.get_recent_messages b cid 0 = all) ∧
    (∀ (b : ConversationManagerS3.Bucket) (cid : String) (n : Nat),
        lookupA b.msgs cid = none →
        ConversationManagerS3.get_recent_messages b cid n = []) := by
  refine ⟨?_, ?_, ?_, ?_⟩
  · intro db cid n
    exact (List.rtake_eq_reverse_take_reverse _ n).symm
  · intro b cid all n hn hsome
    unfold ConversationManagerS3.get_recent_messages
    rw [hsome]
    cases all with
    | nil => simp [ConversationManagerS3.pyLastSlice, List.rtake]
    | cons a l =>
        have hn0 : ¬ n = 0 := Nat.one_le_iff_ne_zero.mp hn
        simp [ConversationManagerS3.pyLastSlice, hn0, List.rtake]
  · intro b cid all hsome
    unfold ConversationManagerS3.get_recent_messages
    rw [hsome]
    cases all with
    | nil => simp
    | cons a l => simp [ConversationManagerS3.pyLastSlice]
  · intro b cid n hnone
    unfold ConversationManagerS3.get_recent_messages
    rw [hnone]

/-- C8 witness: a concrete Object-Store conversation with one message,
read back with limits 5 and 0. -/
theorem C8_witness :
    (lookupA ((ConversationManagerS3.add_message
        (ConversationManagerS3.create_conversation ConversationManagerS3.emptyBucket
          "c1" none none none).2 "c1" "user" "hi" none none).2.msgs) "c1" =
      some [{ id := 0, conversation_id := "c1", timestamp := 1, sender_type := "user",
              sender_name := none, content := "hi", metadata := none }]) ∧
    (ConversationManagerS3.get_recent_messages
      (ConversationManagerS3.add_message
        (ConversationManagerS3.create_conversation ConversationManagerS3.emptyBucket
          "c1" none none none).2 "c1" "user" "hi" none none).2 "c1" 5 =
      ([{ id := 0, conversation_id := "c1", timestamp := 1, sender_type := "user",
          sender_name := none, content := "hi", metadata := none }] :
        List ConversationManagerS3.S3Msg).rtake 5) ∧
    (ConversationManagerS3.get_recent_messages
      (ConversationManagerS3.add_message
        (ConversationManagerS3.create_conversation ConversationManagerS3.emptyBucket
          "c1" none none none).2 "c1" "user" "hi" none none).2 "c1" 0 =
      [{ id := 0, conversation_id := "c1", timestamp := 1, sender_type := "user",
         sender_name := none, content := "hi", metadata := none }]) ∧
    (ConversationManagerS3.get_recent_messages ConversationManagerS3.emptyBucket
      "nope" 3 = []) := by
  have hsome : lookupA ((ConversationManagerS3.add_message
      (ConversationManagerS3.create_conversation ConversationManagerS3.emptyBucket
        "c1" none none none).2 "c1" "user" "hi" none none).2.msgs) "c1" =
      some [{ id := 0, conversation_id := "c1", timestamp := 1, sender_type := "user",
              sender_name := none, content := "hi", metadata := none }] := rfl
  have hnone : lookupA (ConversationManagerS3.emptyBucket).msgs "nope" = none := rfl
  exact ⟨hsome, C8_amended.2.1 _ "c1" _ 5 (by decide) hsome,
    C8_amended.2.2.1 _ "c1" _ hsome, C8_amended.2.2.2 _ "nope" 3 hnone⟩

/-- C9 amended: on both backends `format_history` returns the literal
`"No conversation history."` when the recent window is empty, and otherwise
the header line `"CONVERSATION HISTORY:\n"` followed by one
`"SENDER: content\n"` line per message of the window (`sender_name` when
truthy, else the upper-cased `sender_type`) — not the bare lines alone. -/
theorem C9_amended :
    (∀ (db : ConversationManager.DB) (cid : String) (n : Nat),
        ConversationManager.format_history_for_context db cid n =
          if ConversationManager.get_recent_messages db cid n = [] then
            "No conversation history."
          else
            "CONVERSATION HISTORY:\n" ++
              linesConcat (fun m => lineOf m.sender_name m.sender_type m.content)
                (ConversationManager.get_recent_messages db cid n)) ∧
    (∀ (b : ConversationManagerS3.Bucket) (cid : String) (n : Nat),
        ConversationManagerS3.format_history_for_context b cid n =
          if ConversationManagerS3.get_recent_messages b cid n = [] then
            "No conversation history."
          else
            "CONVERSATION HISTORY:\n" ++
              linesConcat (fun m => lineOf m.sender_name m.sender_type m.content)
                (ConversationManagerS3.get_recent_messages b cid n)) := by
  constructor
  · intro db cid n
    by_cases h : ConversationManager.get_recent_messages db cid n = []
    · simp [ConversationManager.format_history_for_context, h,
        ConversationManager.renderLines]
    · simp [ConversationManager.format_history_for_context, h,
        ConversationManager.renderLines, List.isEmpty_iff, foldl_append_lines]
  · intro b cid n
    by_cases h : ConversationManagerS3.get_recent_messages b cid n = []
    · simp [ConversationManagerS3.format_history_for_context, h,
        ConversationManagerS3.renderLines]
    · simp [ConversationManagerS3.format_history_for_context, h,
        ConversationManagerS3.renderLines, List.isEmpty_iff, foldl_append_lines]
